import Mathlib

/-!
Verification of the orchestration core of the NodeSeek daily check-in and
comment script (`main.py`) against its natural-language specification.

The browser automation engine (DrissionPage) is an external collaborator:
each DOM/navigation primitive the script calls is modelled by an
environment record field giving that call's outcome, `Except Err x` for a
call that may raise, `Option x` for an element query that may come back
empty.  The script's own control flow (try/except structure, filters,
sampling, loops, the retry decorator, the orchestrator) is translated
statement by statement from the source.
-/

namespace NS

/-- A Python exception reduced to its message. -/
abbrev Err := String

/-! ## String containment, modelling Python's `in` operator on str -/

/-- Does `pat` occur at the head of `s`?  (Helper for substring search.) -/
def charsStartWith : List Char → List Char → Bool
  | [], _ => true
  | _ :: _, [] => false
  | a :: as, b :: bs => a == b && charsStartWith as bs

/-- Does `pat` occur contiguously anywhere in `s`?  Models Python `pat in s`. -/
def charsContain (pat : List Char) : List Char → Bool
  | [] => pat.isEmpty
  | b :: bs => charsStartWith pat (b :: bs) || charsContain pat bs

/-- Python `pat in s` for strings. -/
def containsStr (pat s : String) : Bool := charsContain pat.data s.data

/-- Python `s.startswith(pat)`. -/
def startsWithStr (pat s : String) : Bool := charsStartWith pat.data s.data

/-! ## The retry decorator (`retry` in main.py, lines 37-67)

```
retries = 0
while retries < max_retries:
    try:
        return func(*args, **kwargs)
    except Exception as e:
        retries += 1
        logger.warning(...)
        if retries >= max_retries:
            logger.error(...)
            raise
        time.sleep(delay)
```

`op k` is the outcome of the (k+1)-th invocation of the wrapped function.
Falling off the loop (only possible when `max_retries = 0`) returns Python
`None`, modelled as `.ok none`.  The log records how often the wrapped
function was called, the warning- and error-level events emitted, and the
durations passed to `time.sleep`.
-/

/-- Observable side effects of one run of the retry wrapper. -/
structure RetryLog where
  calls : Nat
  warns : Nat
  errlogs : Nat
  sleeps : List Nat
deriving Repr, DecidableEq

/-- The retry loop; `fuel = max_retries - retries` counts the remaining
iterations allowed by the guard `retries < max_retries`. -/
def retryFuel {α : Type} (op : Nat → Except Err α) (delay : Nat) :
    Nat → Nat → Except Err (Option α) × RetryLog
  | _, 0 => (.ok none, ⟨0, 0, 0, []⟩)
  | retries, fuel + 1 =>
    match op retries with
    | .ok a => (.ok (some a), ⟨1, 0, 0, []⟩)
    | .error e =>
      if fuel = 0 then
        (.error e, ⟨1, 1, 1, []⟩)
      else
        let rest := retryFuel op delay (retries + 1) fuel
        (rest.1, ⟨rest.2.calls + 1, rest.2.warns + 1, rest.2.errlogs, delay :: rest.2.sleeps⟩)

/-- The wrapped function produced by `retry(max_retries, delay)`. -/
def retry {α : Type} (op : Nat → Except Err α) (maxRetries delay : Nat) :
    Except Err (Option α) × RetryLog :=
  retryFuel op delay 0 maxRetries

/-! ## `random.sample(population, k)` (used in comment_posts, line 298)

Sampling without replacement: `k` times, an index into the remaining
population is drawn (the drawn position is supplied by the oracle `pick`,
reduced modulo the current size), the element at that position is taken and
removed.  Any concrete draw sequence of CPython's `random.sample` is one
choice of `pick`. -/

def randomSample {α : Type} (pick : Nat → Nat) : List α → Nat → List α
  | _, 0 => []
  | [], _ + 1 => []
  | a :: rest, k + 1 =>
    let i := pick k % (a :: rest).length
    (a :: rest).getD i a :: randomSample pick ((a :: rest).eraseIdx i) k

/-- Taking the element at a valid index and the rest recovers the list up
to permutation. -/
theorem getD_cons_eraseIdx_perm {α : Type} :
    ∀ (l : List α) (i : Nat) (d : α), i < l.length →
      List.Perm (l.getD i d :: l.eraseIdx i) l := by
  intro l
  induction l with
  | nil => intro i d h; simp at h
  | cons a rest ih =>
    intro i d h
    cases i with
    | zero => simp [List.getD]
    | succ j =>
      have hj : j < rest.length := by simpa using h
      have hrec := ih j d hj
      have hswap : List.Perm (rest.getD j d :: a :: rest.eraseIdx j)
          (a :: rest.getD j d :: rest.eraseIdx j) := List.Perm.swap _ _ _
      have hall := hswap.trans (List.Perm.cons a hrec)
      simpa [List.eraseIdx, List.getD] using hall

/-- Lemma: `random.sample` draws from the population without replacement: the
result is a permutation of a sublist of the population. -/
theorem randomSample_subperm {α : Type} (pick : Nat → Nat) :
    ∀ (k : Nat) (l : List α), List.Subperm (randomSample pick l k) l := by
  intro k
  induction k with
  | zero => intro l; cases l <;> exact List.nil_subperm
  | succ k ih =>
    intro l
    cases l with
    | nil => exact List.nil_subperm
    | cons a rest =>
      have hi : pick k % (a :: rest).length < (a :: rest).length :=
        Nat.mod_lt _ (by simp)
      have hsub := (List.subperm_cons ((a :: rest).getD (pick k % (a :: rest).length) a)).mpr
        (ih ((a :: rest).eraseIdx (pick k % (a :: rest).length)))
      have hperm := getD_cons_eraseIdx_perm (a :: rest) (pick k % (a :: rest).length) a hi
      exact (randomSample.eq_3 pick a rest k) ▸ hsub.trans hperm.subperm

/-- Lemma: `random.sample(l, k)` returns exactly `k` elements when `k ≤ |l|`. -/
theorem randomSample_length {α : Type} (pick : Nat → Nat) :
    ∀ (k : Nat) (l : List α), k ≤ l.length → (randomSample pick l k).length = k := by
  intro k
  induction k with
  | zero => intro l _; cases l <;> rfl
  | succ k ih =>
    intro l hk
    cases l with
    | nil => simp at hk
    | cons a rest =>
      have hi : pick k % (a :: rest).length < (a :: rest).length :=
        Nat.mod_lt _ (by simp)
      have herase := List.length_eraseIdx_add_one hi
      have hk' : k ≤ ((a :: rest).eraseIdx (pick k % (a :: rest).length)).length := by
        omega
      have hfin : (randomSample pick ((a :: rest).eraseIdx (pick k % (rest.length + 1))) k).length
          = k := ih _ hk'
      simp [randomSample, hfin]

/-- A sample without replacement from a duplicate-free population is
duplicate-free. -/
theorem randomSample_nodup {α : Type} (pick : Nat → Nat) (k : Nat) (l : List α)
    (h : l.Nodup) : (randomSample pick l k).Nodup := by
  obtain ⟨u, hperm, hsub⟩ := randomSample_subperm pick k l
  exact hperm.nodup (hsub.nodup h)

/-! ## The comment action (`comment_posts`, main.py lines 242-405)

A listing item (`css:.post-list-item`) is modelled by what the script reads
from it: whether a `css:.pined` child is present, the `css:.post-title`
text, and the title link together with its `href` attribute.  `anchor =
none` means no `css:.post-title a` element (the script then appends
nothing); `anchor = some none` means the element exists but
`attr("href")` returned Python `None` (the script appends `None`, and the
later `startswith` call on it raises). -/

structure Post where
  id : Nat
  pinned : Bool
  title : String
  anchor : Option (Option String)
deriving Repr, DecidableEq

deriving instance DecidableEq for Except

/-- Outcomes of the browser calls made while commenting on one post page
(lines 318-398).  The random choice of comment text and the sleeps do not
influence any observable the spec talks about; a raise anywhere in the
character-injection loop is collapsed into `typeJs`. -/
structure PostVisit where
  nav : Except Err Unit
  editorFind : Except Err (Option Unit)
  editorClick : Except Err Unit
  clearJs : Except Err Unit
  typeJs : Except Err Unit
  submitFind : Except Err (Option Unit)
  submitClick : Except Err Unit
deriving Repr, DecidableEq

/-- Environment of one `comment_posts` run: outcome of navigating to the
trade listing, outcome of the `css:.post-list-item` query, the sampling
oracle, and the outcomes met on each post page (keyed by its full URL). -/
structure CEnv where
  navListing : Except Err Unit
  listItems : Except Err (List Post)
  pick : Nat → Nat
  perPost : String → PostVisit

/-- Observable effects of one `comment_posts` run: how often the listing
page was requested and which post pages were requested. -/
structure CTrace where
  listingNavs : Nat
  postNavs : List String
deriving Repr, DecidableEq

/-- Lines 272-288: drop pinned posts, then keep titles containing "出" but
not "已出". -/
def validPosts (items : List Post) : List Post :=
  (items.filter fun p => !p.pinned).filter
    fun p => containsStr "出" p.title && !containsStr "已出" p.title

/-- Lines 297-298: the posts picked by `random.sample(valid_posts,
min(max_posts, len(valid_posts)))`. -/
def selectedPosts (pick : Nat → Nat) (items : List Post) (maxPosts : Nat) : List Post :=
  randomSample pick (validPosts items) (min maxPosts (validPosts items).length)

/-- Lines 301-309: collect `href`s of the selected posts; a post without a
title link contributes nothing (its per-post `try` just moves on). -/
def collectUrls : List Post → List (Option String)
  | [] => []
  | p :: rest =>
    match p.anchor with
    | none => collectUrls rest
    | some h => h :: collectUrls rest

/-- Line 323-326: resolve a possibly relative href against the site root. -/
def fullUrl (u : String) : String :=
  if startsWithStr "http" u then u else "https://www.nodeseek.com" ++ u

/-- Lines 318-398, one iteration: the per-post `try` block.  Returns
whether `comment_count` was incremented; any raised step or missing
element ends the iteration without incrementing (`except ... continue`
and the two `continue` skips). -/
def visitPost (pv : PostVisit) : Bool :=
  match pv.nav with
  | .error _ => false
  | .ok _ =>
    match pv.editorFind with
    | .error _ => false
    | .ok none => false
    | .ok (some _) =>
      match pv.editorClick with
      | .error _ => false
      | .ok _ =>
        match pv.clearJs with
        | .error _ => false
        | .ok _ =>
          match pv.typeJs with
          | .error _ => false
          | .ok _ =>
            match pv.submitFind with
            | .error _ => false
            | .ok none => false
            | .ok (some _) =>
              match pv.submitClick with
              | .error _ => false
              | .ok _ => true

/-- Lines 318-398, the loop over `selected_urls`: returns the final
`comment_count` and the post pages navigated to.  A `none` url is Python
`None`: `None.startswith` raises before any navigation, the per-post
handler catches it and the loop continues. -/
def visitLoop (perPost : String → PostVisit) : List (Option String) → Nat × List String
  | [] => (0, [])
  | none :: rest => visitLoop perPost rest
  | some u :: rest =>
    let r := visitLoop perPost rest
    (r.1 + (if visitPost (perPost (fullUrl u)) then 1 else 0), fullUrl u :: r.2)

/-- The body of `comment_posts` (the outer `try`, lines 253-401). -/
def commentBody (env : CEnv) (maxPosts : Nat) : Except Err Nat × CTrace :=
  match env.navListing with
  | .error e => (.error e, ⟨1, []⟩)
  | .ok _ =>
    match env.listItems with
    | .error e => (.error e, ⟨1, []⟩)
    | .ok items =>
      if items.isEmpty then (.ok 0, ⟨1, []⟩)
      else
        if (validPosts items).isEmpty then (.ok 0, ⟨1, []⟩)
        else
          let urls := collectUrls (selectedPosts env.pick items maxPosts)
          let r := visitLoop env.perPost urls
          (.ok r.1, ⟨1, r.2⟩)

/-- Model of `comment_posts` with its catch-all handler (lines 403-405): any
exception from the body is logged and turned into the return value `0`. -/
def comment_posts (env : CEnv) (maxPosts : Nat) : Except Err Nat × CTrace :=
  match commentBody env maxPosts with
  | (.error _, t) => (.ok 0, t)
  | (r, t) => (r, t)

/-- The loop cannot count more successful comments than it has urls. -/
theorem visitLoop_count_le (perPost : String → PostVisit) :
    ∀ (urls : List (Option String)), (visitLoop perPost urls).1 ≤ urls.length := by
  intro urls
  induction urls with
  | nil => simp [visitLoop]
  | cons u rest ih =>
    cases u with
    | none => simpa [visitLoop] using Nat.le_succ_of_le ih
    | some u =>
      simp only [visitLoop, List.length_cons]
      have : (if visitPost (perPost (fullUrl u)) then 1 else 0) ≤ 1 := by
        split <;> omega
      omega

/-- At most one url is collected per selected post. -/
theorem collectUrls_length_le :
    ∀ (posts : List Post), (collectUrls posts).length ≤ posts.length := by
  intro posts
  induction posts with
  | nil => simp [collectUrls]
  | cons p rest ih =>
    cases h : p.anchor <;> simp [collectUrls, h] <;> omega

/-! ## The check-in action (`sign_in`, main.py lines 162-240) -/

/-- Environment of one `sign_in` run: outcomes of the browser calls it can
make, in source order, plus the `use_random` configuration read on
line 205. -/
structure SignEnv where
  navRoot : Except Err Unit
  findIcon : Except Err (Option Unit)
  clickIcon : Except Err Unit
  jsClickIcon : Except Err Unit
  readUrl : Except Err Unit
  findLucky : Except Err (Option Unit)
  clickLucky : Except Err Unit
  findChicken : Except Err (Option Unit)
  clickChicken : Except Err Unit
  useRandom : Bool

/-- Observable effects of one `sign_in` run: root-page navigations and
click attempts (on the icon, by script, or on a reward button). -/
structure STrace where
  navs : Nat
  clicks : Nat
deriving Repr, DecidableEq

/-- Lines 203-230, the inner `try` choosing a reward: whichever button is
searched for, found or not, clicked or raising, the block ends in `return
True` (its own handler treats failure as "already checked in", line
227-230).  Returns the reported result and the click attempts made. -/
def rewardStep (env : SignEnv) : Bool × Nat :=
  if env.useRandom then
    match env.findLucky with
    | .error _ => (true, 0)
    | .ok none => (true, 0)
    | .ok (some _) =>
      match env.clickLucky with
      | .error _ => (true, 1)
      | .ok _ => (true, 1)
  else
    match env.findChicken with
    | .error _ => (true, 0)
    | .ok none => (true, 0)
    | .ok (some _) =>
      match env.clickChicken with
      | .error _ => (true, 1)
      | .ok _ => (true, 1)

/-- The body of `sign_in` (the outer `try`, lines 170-230): navigate to the
root, look for the icon (absent means already checked in, line 181-183),
click it (falling back to a scripted click, lines 188-194), log the current
url (line 200, an uncaught read), then run the reward step. -/
def signBody (env : SignEnv) : Except Err Bool × STrace :=
  match env.navRoot with
  | .error e => (.error e, ⟨1, 0⟩)
  | .ok _ =>
    match env.findIcon with
    | .error e => (.error e, ⟨1, 0⟩)
    | .ok none => (.ok false, ⟨1, 0⟩)
    | .ok (some _) =>
      match env.clickIcon with
      | .ok _ =>
        match env.readUrl with
        | .error e => (.error e, ⟨1, 1⟩)
        | .ok _ => (.ok (rewardStep env).1, ⟨1, 1 + (rewardStep env).2⟩)
      | .error _ =>
        match env.jsClickIcon with
        | .error e => (.error e, ⟨1, 2⟩)
        | .ok _ =>
          match env.readUrl with
          | .error e => (.error e, ⟨1, 2⟩)
          | .ok _ => (.ok (rewardStep env).1, ⟨1, 2 + (rewardStep env).2⟩)

/-- Model of `sign_in` with its catch-all handler (lines 232-240): any exception
from the body is logged and turned into the return value `False`. -/
def sign_in (env : SignEnv) : Except Err Bool × STrace :=
  match signBody env with
  | (.error _, t) => (.ok false, t)
  | (r, t) => (r, t)

/-! ## The authenticator (`login` and `_is_logged_in`, main.py lines 95-123) -/

/-- The steps `login` can take; `passwordLoginStep` stands for any
interactive username/password submission — no code path emits it. -/
inductive LoginStep
  | navRootStep
  | setCookiesStep
  | refreshStep
  | probeStep
  | passwordLoginStep
deriving Repr, DecidableEq

/-- Configuration and browser outcomes for one `login` run. -/
structure LoginEnv where
  cookie : Option String
  username : Option String
  password : Option String
  navRoot : Except Err Unit
  setCookies : Except Err Unit
  refreshPg : Except Err Unit
  probeUserCard : Except Err (Option Unit)

/-- Model of `_is_logged_in` (lines 115-123): probe for the user-card element; a
missing element or a raise both yield `False`. -/
def is_logged_in (env : LoginEnv) : Bool :=
  match env.probeUserCard with
  | .ok (some _) => true
  | .ok none => false
  | .error _ => false

/-- Model of `login` (lines 95-113): with a cookie, navigate to the root, install
the cookie, refresh and probe; success returns `True`, a failed probe falls
through to the final error log and `return False`.  Without a cookie the
function goes straight to that `return False`.  `login` has no handler of
its own, so a raising browser call propagates. -/
def login (env : LoginEnv) : Except Err Bool × List LoginStep :=
  match env.cookie with
  | none => (.ok false, [])
  | some _ =>
    match env.navRoot with
    | .error e => (.error e, [.navRootStep])
    | .ok _ =>
      match env.setCookies with
      | .error e => (.error e, [.navRootStep, .setCookiesStep])
      | .ok _ =>
        match env.refreshPg with
        | .error e => (.error e, [.navRootStep, .setCookiesStep, .refreshStep])
        | .ok _ =>
          (.ok (is_logged_in env), [.navRootStep, .setCookiesStep, .refreshStep, .probeStep])

/-! ## Headless configuration (main.py lines 77, 556-564, 589-591)

`__init__` reads `os.environ.get("HEADLESS", "true").lower() == "true"`.
argparse registers `--headless` (`store_true`, so the shared dest
`headless` is seeded with the default `False`) before `--no-headless`
(`store_false` on the same dest, whose default `True` is then ignored);
with several flags the last one on the command line wins.  `main` then
runs `if args.headless is not None: node_seek.headless = args.headless`,
and since `args.headless` is always a bool, the assignment always runs. -/

/-- The two CLI flags that write the `headless` dest. -/
inductive CliTok
  | headlessFlag
  | noHeadlessFlag
deriving Repr, DecidableEq

/-- ASCII lowercasing of one character, the fragment of Python's
`str.lower()` that matters for parsing a boolean setting. -/
def lowerChar (c : Char) : Char :=
  if 65 ≤ c.toNat ∧ c.toNat ≤ 90 then Char.ofNat (c.toNat + 32) else c

/-- Value of `self.headless` as computed by `__init__` from the `HEADLESS`
environment variable (`none` = unset):
`os.environ.get("HEADLESS", "true").lower() == "true"`. -/
def envHeadless (henv : Option String) : Bool :=
  ((henv.getD "true").data.map lowerChar) == "true".data

/-- Value of `args.headless` after `parse_args`: argparse default `False`, then each
occurrence of a flag overwrites it. -/
def argsHeadless (argv : List CliTok) : Bool :=
  argv.foldl
    (fun _ t =>
      match t with
      | CliTok.headlessFlag => true
      | CliTok.noHeadlessFlag => false)
    false

/-- The headless mode the session is finally launched with: `__init__`
sets it from the environment, then main's `is not None` guard — always
true — overwrites it with `args.headless`. -/
def effectiveHeadless (henv : Option String) (argv : List CliTok) : Bool :=
  match some (argsHeadless argv) with
  | some b => b
  | none => envHeadless henv

/-! ## The orchestrator (`run_all` lines 499-535, `main` lines 575-637)

The pipeline stages are modelled by their outcomes.  `setup_browser`
catches its own exceptions, so it returns a bool; it may have assigned
`self.page` even when it returns `False` (the page is created on line 142,
before the headless script injection that can still raise).  `login` has no
handler and may raise.  The comment and check-in calls go through their
retry decorators; their outcomes are taken as a whole here. -/

/-- How `setup_browser` ended: no page assigned, page assigned but the
call still returned `False`, or full success. -/
inductive SetupOut
  | noPage
  | pageFail
  | pageOk
deriving Repr, DecidableEq

/-- The boolean `setup_browser` returned. -/
def setupOk : SetupOut → Bool
  | .pageOk => true
  | _ => false

/-- Whether `self.page` is truthy afterwards. -/
def pageMade : SetupOut → Bool
  | .noPage => false
  | _ => true

/-- The collaborator calls the orchestrator makes, with the argument that
matters to the spec. -/
inductive Invocation
  | setupCall
  | loginCall
  | commentCall (maxPosts : Nat)
  | signCall
  | quitCall
deriving Repr, DecidableEq

/-- Stage outcomes for one orchestrator run (deterministic per run: the
same stage called twice meets the same outcome). -/
structure OrchEnv where
  credOk : Bool
  setup : SetupOut
  loginRes : Except Err Bool
  commentRes : Nat → Except Err Nat
  signRes : Except Err Bool

/-- The command-line arguments `main` consults for task selection. -/
structure Args where
  signOnly : Bool
  commentOnly : Bool
  maxPosts : Nat
deriving Repr, DecidableEq

/-- Model of `run_all(max_posts)` (lines 499-535): setup, login, comment, check-in
inside one `try`; any raise is caught and returns `False`.  Line 521 passes
the literal `2` to `comment_posts`, ignoring the `maxPosts` parameter
("暂时使用2个帖子"). -/
def run_all (env : OrchEnv) (maxPosts : Nat) : Bool × List Invocation :=
  if setupOk env.setup = false then (false, [.setupCall])
  else
    match env.loginRes with
    | .error _ => (false, [.setupCall, .loginCall])
    | .ok false => (false, [.setupCall, .loginCall])
    | .ok true =>
      match env.commentRes 2 with
      | .error _ => (false, [.setupCall, .loginCall, .commentCall 2])
      | .ok _ =>
        match env.signRes with
        | .error _ => (false, [.setupCall, .loginCall, .commentCall 2, .signCall])
        | .ok _ => (true, [.setupCall, .loginCall, .commentCall 2, .signCall])

/-- The `try` part of `main` (lines 577-629): construct `NodeSeekDaily`
(raises without credentials), apply the CLI overrides, set up the browser,
log in, then run the mode selected by the flags.  In the single-task modes
the sign/comment result is only logged, so `main` still returns `True`;
any raise yields `False` through the handler on line 627. -/
def mainBody (env : OrchEnv) (args : Args) : Bool × List Invocation :=
  if env.credOk = false then (false, [])
  else if setupOk env.setup = false then (false, [.setupCall])
  else
    match env.loginRes with
    | .error _ => (false, [.setupCall, .loginCall])
    | .ok false => (false, [.setupCall, .loginCall])
    | .ok true =>
      if args.signOnly then
        match env.signRes with
        | .error _ => (false, [.setupCall, .loginCall, .signCall])
        | .ok _ => (true, [.setupCall, .loginCall, .signCall])
      else if args.commentOnly then
        match env.commentRes args.maxPosts with
        | .error _ => (false, [.setupCall, .loginCall, .commentCall args.maxPosts])
        | .ok _ => (true, [.setupCall, .loginCall, .commentCall args.maxPosts])
      else
        let r := run_all env args.maxPosts
        (r.1, [Invocation.setupCall, Invocation.loginCall] ++ r.2)

/-- Was `node_seek` bound with a truthy `node_seek.page` when the `finally`
block ran (line 632)? -/
def pageCreated (env : OrchEnv) : Bool :=
  env.credOk && pageMade env.setup

/-- One full `main` run: the body, then the `finally` block (lines
630-637) which quits the page when one exists, then — when the garbage
collector finalizes `node_seek` before the process exits, as CPython's
reference counting does on leaving `main` — `__del__` (lines 153-160),
which quits the still-truthy page again. -/
def mainRun (env : OrchEnv) (args : Args) (gcRuns : Bool) : Bool × List Invocation :=
  let b := mainBody env args
  (b.1,
    b.2 ++ (if pageCreated env then [Invocation.quitCall] else [])
      ++ (if gcRuns && pageCreated env then [Invocation.quitCall] else []))

/-- The pipeline stages themselves never quit the page. -/
theorem mainBody_no_quit (env : OrchEnv) (args : Args) :
    Invocation.quitCall ∉ (mainBody env args).2 := by
  unfold mainBody run_all
  repeat' split
  all_goals simp

/-! ## Claim theorems -/

/-- When the first `s` attempts fail and attempt `s + 1` succeeds within
the budget, the loop returns that value after `s` warnings and `s` sleeps
of `delay` seconds. -/
theorem retryFuel_success {α : Type} (op : Nat → Except Err α) (D : Nat) (a : α) :
    ∀ (s retries fuel : Nat), s < fuel →
      (∀ j, j < s → (op (retries + j)).isOk = false) →
      op (retries + s) = .ok a →
      retryFuel op D retries fuel = (.ok (some a), ⟨s + 1, s, 0, List.replicate s D⟩) := by
  intro s
  induction s with
  | zero =>
    intro retries fuel hf _ hok
    cases fuel with
    | zero => omega
    | succ f =>
      have hok' : op retries = .ok a := by simpa using hok
      simp [retryFuel, hok']
  | succ s ih =>
    intro retries fuel hf h0 hok
    cases fuel with
    | zero => omega
    | succ f =>
      have hfail := h0 0 (by omega)
      rcases herr : op retries with e | v
      · have hf0 : ¬ f = 0 := by omega
        have hrec := ih (retries + 1) f (by omega)
          (fun j hj => by
            have hh := h0 (j + 1) (by omega)
            rw [show retries + 1 + j = retries + (j + 1) by omega]
            exact hh)
          (by
            rw [show retries + 1 + s = retries + (s + 1) by omega]
            exact hok)
        simp [retryFuel, herr, hf0, hrec, List.replicate_succ]
      · have hfail' : (op retries).isOk = false := by simpa using hfail
        rw [herr] at hfail'
        simp [Except.isOk, Except.toBool] at hfail'

/-- When every attempt in the budget fails, the loop re-raises the last
failure after `fuel` warnings, one error event and `fuel - 1` sleeps. -/
theorem retryFuel_allfail {α : Type} (op : Nat → Except Err α) (D : Nat) (e : Nat → Err) :
    ∀ (fuel retries : Nat), 1 ≤ fuel →
      (∀ j, j < fuel → op (retries + j) = .error (e (retries + j))) →
      retryFuel op D retries fuel =
        (.error (e (retries + fuel - 1)), ⟨fuel, fuel, 1, List.replicate (fuel - 1) D⟩) := by
  intro fuel
  induction fuel with
  | zero => intro retries h; omega
  | succ f ih =>
    intro retries _ hall
    have h0 : op retries = .error (e retries) := by simpa using hall 0 (by omega)
    cases f with
    | zero => simp [retryFuel, h0]
    | succ g =>
      have hrec := ih (retries + 1) (by omega)
        (fun j hj => by
          rw [show retries + 1 + j = retries + (j + 1) by omega]
          exact hall (j + 1) (by omega))
      have hg : ¬ g + 1 = 0 := by omega
      have hidx : retries + 1 + (g + 1) - 1 = retries + (g + 1 + 1) - 1 := by omega
      rw [hidx] at hrec
      rw [retryFuel.eq_2, h0]
      simp only [hg, if_false, hrec]
      simp [List.replicate_succ]

/-- The wrapped function is called at most `fuel` times. -/
theorem retryFuel_calls_le {α : Type} (op : Nat → Except Err α) (D : Nat) :
    ∀ (fuel retries : Nat), (retryFuel op D retries fuel).2.calls ≤ fuel := by
  intro fuel
  induction fuel with
  | zero => intro retries; simp [retryFuel]
  | succ f ih =>
    intro retries
    rcases h : op retries with e | v
    · by_cases hf : f = 0
      · simp [retryFuel, h, hf]
      · have := ih (retries + 1)
        simp only [retryFuel, h, hf, if_false]
        simpa using Nat.succ_le_succ this
    · simp [retryFuel, h]

/-- Claim C1: for every operation, every `max_retries` N ≥ 1 and delay
D ≥ 0, the retry wrapper invokes the operation at most N times and stops at
the first success: if attempt k ≤ N succeeds the wrapper returns that
attempt's value after exactly k - 1 warning events, 0 error events and
k - 1 sleeps of D seconds; if all N attempts fail it re-raises the final
failure after N warning events, exactly 1 error event and N - 1 sleeps of
D seconds between consecutive attempts. -/
theorem retry_claim :
    (∀ (α : Type) (op : Nat → Except Err α) (N D k : Nat) (a : α),
      1 ≤ k → k ≤ N →
      (∀ j, j < k - 1 → (op j).isOk = false) →
      op (k - 1) = .ok a →
      retry op N D = (.ok (some a), ⟨k, k - 1, 0, List.replicate (k - 1) D⟩))
    ∧ (∀ (α : Type) (op : Nat → Except Err α) (N D : Nat) (e : Nat → Err),
      1 ≤ N →
      (∀ j, j < N → op j = .error (e j)) →
      retry op N D = (.error (e (N - 1)), ⟨N, N, 1, List.replicate (N - 1) D⟩))
    ∧ (∀ (α : Type) (op : Nat → Except Err α) (N D : Nat), (retry op N D).2.calls ≤ N) := by
  refine ⟨?_, ?_, ?_⟩
  · intro α op N D k a hk hkN hfail hok
    have h := retryFuel_success op D a (k - 1) 0 N (by omega)
      (fun j hj => by simpa using hfail j hj)
      (by simpa using hok)
    rw [show k - 1 + 1 = k by omega] at h
    exact h
  · intro α op N D e hN hall
    have h := retryFuel_allfail op D e N 0 hN (fun j hj => by simpa using hall j hj)
    simpa using h
  · intro α op N D
    exact retryFuel_calls_le op D N 0

/-- An operation failing twice then succeeding on a budget of 3 attempts. -/
def opTwoFails : Nat → Except Err Nat :=
  fun j => if j < 2 then .error "boom" else .ok 42

/-- An operation failing on every attempt. -/
def opAllFail : Nat → Except Err Nat :=
  fun _ => .error "boom"

/-- Witness for C1 at `max_retries = 3`, `delay = 2`: the fail-fail-succeed
operation returns 42 with 2 warnings, 0 errors and 2 sleeps; the always
failing one is re-raised with 3 warnings and 1 error after 2 sleeps. -/
theorem retry_claim_witness :
    retry opTwoFails 3 2 = (.ok (some 42), ⟨3, 2, 0, [2, 2]⟩)
    ∧ retry opAllFail 3 2 = (.error "boom", ⟨3, 3, 1, [2, 2]⟩)
    ∧ (retry opAllFail 3 2).2.calls ≤ 3 := by
  refine ⟨?_, ?_, ?_⟩
  · have h := retry_claim.1 Nat opTwoFails 3 2 3 42 (by omega) (by omega)
      (by decide) (by decide)
    simpa using h
  · have h := retry_claim.2.1 Nat opAllFail 3 2 (fun _ => "boom") (by omega) (by decide)
    simpa using h
  · exact retry_claim.2.2 Nat opAllFail 3 2

/-- A wrapped call whose first attempt succeeds never retries: one call,
no warnings, no error events, no sleeps. -/
theorem retry_of_ok {α : Type} (op : Nat → Except Err α) (D : Nat) (b : α)
    (h : op 0 = .ok b) : retry op 3 D = (.ok (some b), ⟨1, 0, 0, []⟩) := by
  simp [retry, retryFuel, h]

/-- Claim C10: the bodies of `sign_in` and `comment_posts` catch every
(catchable) exception themselves: the wrapped calls always return `.ok` —
`false` respectively `0` when the body raised — so their retry decorators
(`max_retries=3, delay=2`) see a success on the first attempt and never
retry, warn or error. -/
theorem handlers_never_propagate :
    ∀ (envS : SignEnv) (envC : CEnv) (m : Nat),
      (∃ b, (sign_in envS).1 = .ok b
        ∧ retry (fun _ => (sign_in envS).1) 3 2 = (.ok (some b), ⟨1, 0, 0, []⟩))
      ∧ (∃ n, (comment_posts envC m).1 = .ok n
        ∧ retry (fun _ => (comment_posts envC m).1) 3 2 = (.ok (some n), ⟨1, 0, 0, []⟩))
      ∧ (∀ e t, signBody envS = (.error e, t) → sign_in envS = (.ok false, t))
      ∧ (∀ e t, commentBody envC m = (.error e, t) → comment_posts envC m = (.ok 0, t)) := by
  intro envS envC m
  refine ⟨?_, ?_, ?_, ?_⟩
  · rcases hb : signBody envS with ⟨res, t⟩
    cases res with
    | error e =>
      have h1 : (sign_in envS).1 = .ok false := by simp [sign_in, hb]
      exact ⟨false, h1, retry_of_ok _ 2 false h1⟩
    | ok b =>
      have h1 : (sign_in envS).1 = .ok b := by simp [sign_in, hb]
      exact ⟨b, h1, retry_of_ok _ 2 b h1⟩
  · rcases hb : commentBody envC m with ⟨res, t⟩
    cases res with
    | error e =>
      have h1 : (comment_posts envC m).1 = .ok 0 := by simp [comment_posts, hb]
      exact ⟨0, h1, retry_of_ok _ 2 0 h1⟩
    | ok n =>
      have h1 : (comment_posts envC m).1 = .ok n := by simp [comment_posts, hb]
      exact ⟨n, h1, retry_of_ok _ 2 n h1⟩
  · intro e t hb
    simp [sign_in, hb]
  · intro e t hb
    simp [comment_posts, hb]

/-- A post page on which every browser call succeeds. -/
def allOkVisit : PostVisit :=
  ⟨.ok (), .ok (some ()), .ok (), .ok (), .ok (), .ok (some ()), .ok ()⟩

/-- A comment run in which navigating to the trade listing raises. -/
def envNavFail : CEnv :=
  ⟨.error "net down", .ok [], fun _ => 0, fun _ => allOkVisit⟩

/-- A check-in run in which navigating to the site root raises. -/
def signNavFail : SignEnv :=
  ⟨.error "net down", .ok (some ()), .ok (), .ok (), .ok (), .ok (some ()), .ok (),
    .ok (some ()), .ok (), false⟩

/-- Witness for C10 at concrete environments, including the two
structural-error conjuncts at a raising navigation. -/
theorem handlers_never_propagate_witness :
    (∃ b, (sign_in signNavFail).1 = Except.ok b
      ∧ retry (fun _ => (sign_in signNavFail).1) 3 2 = (.ok (some b), ⟨1, 0, 0, []⟩))
    ∧ (∃ n, (comment_posts envNavFail 5).1 = Except.ok n
      ∧ retry (fun _ => (comment_posts envNavFail 5).1) 3 2 = (.ok (some n), ⟨1, 0, 0, []⟩))
    ∧ sign_in signNavFail = (.ok false, ⟨1, 0⟩)
    ∧ comment_posts envNavFail 5 = (.ok 0, ⟨1, []⟩) := by
  have h := handlers_never_propagate signNavFail envNavFail 5
  exact ⟨h.1, h.2.1, h.2.2.1 "net down" ⟨1, 0⟩ rfl, h.2.2.2 "net down" ⟨1, []⟩ rfl⟩

/-- Claim C2 (refuted by the code): a raising navigation never reaches the
retry wrapper.  With the listing (resp. root) navigation raising, the
catch-all inside `comment_posts` (resp. `sign_in`) converts the exception
into the return value `0` (resp. `False`); the decorators therefore record
a clean first-attempt success — no warning, no retry, nothing fatal. -/
theorem nav_failure_swallowed :
    comment_posts envNavFail 5 = (.ok 0, ⟨1, []⟩)
    ∧ sign_in signNavFail = (.ok false, ⟨1, 0⟩)
    ∧ retry (fun _ => (comment_posts envNavFail 5).1) 3 2 = (.ok (some 0), ⟨1, 0, 0, []⟩)
    ∧ retry (fun _ => (sign_in signNavFail).1) 3 2 = (.ok (some false), ⟨1, 0, 0, []⟩) :=
  ⟨rfl, rfl, retry_of_ok _ 2 0 rfl, retry_of_ok _ 2 false rfl⟩

/-- Claim C3: the comment action samples exactly
`min(maxPosts, eligiblePostCount)` posts, without replacement (the
selection is a permutation of a sublist of the eligible list, so pairwise
distinct when the listing's posts are), and the count it returns never
exceeds that bound. -/
theorem comment_selection_bounds :
    ∀ (env : CEnv) (m : Nat) (items : List Post),
      env.navListing = .ok () → env.listItems = .ok items →
      (selectedPosts env.pick items m).length = min m (validPosts items).length
      ∧ List.Subperm (selectedPosts env.pick items m) (validPosts items)
      ∧ (items.Nodup → (selectedPosts env.pick items m).Nodup)
      ∧ ∀ n, (comment_posts env m).1 = .ok n → n ≤ min m (validPosts items).length := by
  intro env m items hnav hitems
  refine ⟨?_, ?_, ?_, ?_⟩
  · exact randomSample_length env.pick _ _ (Nat.min_le_right _ _)
  · exact randomSample_subperm env.pick _ _
  · intro hnd
    exact randomSample_nodup env.pick _ _ ((hnd.filter _).filter _)
  · intro n hn
    by_cases h1 : items.isEmpty
    · simp [comment_posts, commentBody, hnav, hitems, h1] at hn
      omega
    · by_cases h2 : (validPosts items).isEmpty
      · simp [comment_posts, commentBody, hnav, hitems, h1, h2] at hn
        omega
      · simp [comment_posts, commentBody, hnav, hitems, h1, h2] at hn
        have hv := visitLoop_count_le env.perPost (collectUrls (selectedPosts env.pick items m))
        have hc := collectUrls_length_le (selectedPosts env.pick items m)
        have hl : (selectedPosts env.pick items m).length = min m (validPosts items).length :=
          randomSample_length env.pick _ _ (Nat.min_le_right _ _)
        omega

/-- A five-item listing: three eligible posts, one pinned, one already
sold. -/
def itemsW : List Post :=
  [⟨1, false, "出一台小鸡", some (some "/post/101")⟩,
   ⟨2, true, "出一台小鸡", some (some "/post/102")⟩,
   ⟨3, false, "已出一台小鸡", some (some "/post/103")⟩,
   ⟨4, false, "出 VPS", some (some "/post/104")⟩,
   ⟨5, false, "出流量包", none⟩]

/-- A comment run over `itemsW` in which every post page cooperates. -/
def envListW : CEnv :=
  ⟨.ok (), .ok itemsW, fun k => k, fun _ => allOkVisit⟩

/-- Witness for C3 on the five-item listing with `maxPosts = 2`. -/
theorem comment_selection_bounds_witness :
    (selectedPosts envListW.pick itemsW 2).length = min 2 (validPosts itemsW).length
    ∧ List.Subperm (selectedPosts envListW.pick itemsW 2) (validPosts itemsW)
    ∧ (selectedPosts envListW.pick itemsW 2).Nodup
    ∧ 2 ≤ min 2 (validPosts itemsW).length := by
  have h := comment_selection_bounds envListW 2 itemsW rfl rfl
  refine ⟨h.1, h.2.1, h.2.2.1 (by decide), ?_⟩
  · have hb := h.2.2.2 2 rfl
    have : (2 : Nat) ≤ 2 := le_refl 2
    omega

/-- Claim C4: a post passes the eligibility filter iff it is not pinned,
its title contains "出" and its title does not contain "已出"; in
particular a plain selling post is kept, an already-sold post is dropped,
and a pinned selling post is dropped. -/
theorem eligibility_filter_claim :
    (∀ (items : List Post) (p : Post),
      p ∈ validPosts items ↔
        p ∈ items ∧ p.pinned = false ∧ containsStr "出" p.title = true
          ∧ containsStr "已出" p.title = false)
    ∧ validPosts [⟨1, false, "出售小部件", none⟩] = [⟨1, false, "出售小部件", none⟩]
    ∧ validPosts [⟨2, false, "已出小部件", none⟩] = []
    ∧ validPosts [⟨3, true, "出售小部件", none⟩] = [] := by
  refine ⟨?_, by decide, by decide, by decide⟩
  intro items p
  simp only [validPosts, List.mem_filter, Bool.and_eq_true, Bool.not_eq_true',
    Bool.not_eq_true, and_assoc]

/-- Claim C7: expected absences are results, not exceptions — with the
check-in icon absent `sign_in` returns `False` after zero click attempts,
and with no eligible post `comment_posts` returns `0` after zero post-page
navigations; neither raises. -/
theorem expected_absence_not_error :
    (∀ (env : SignEnv), env.navRoot = .ok () → env.findIcon = .ok none →
      sign_in env = (.ok false, ⟨1, 0⟩))
    ∧ (∀ (env : CEnv) (m : Nat) (items : List Post),
      env.navListing = .ok () → env.listItems = .ok items → validPosts items = [] →
      comment_posts env m = (.ok 0, ⟨1, []⟩)) := by
  constructor
  · intro env hnav hicon
    simp [sign_in, signBody, hnav, hicon]
  · intro env m items hnav hitems hvalid
    by_cases h1 : items.isEmpty
    · simp [comment_posts, commentBody, hnav, hitems, h1]
    · simp [comment_posts, commentBody, hnav, hitems, h1, hvalid]

/-- A check-in run in which the icon is simply not on the page. -/
def signNoIcon : SignEnv :=
  ⟨.ok (), .ok none, .ok (), .ok (), .ok (), .ok none, .ok (), .ok none, .ok (), false⟩

/-- A comment run over an empty listing. -/
def envEmptyListing : CEnv :=
  ⟨.ok (), .ok [], fun _ => 0, fun _ => allOkVisit⟩

/-- Witness for C7 at concrete environments. -/
theorem expected_absence_not_error_witness :
    sign_in signNoIcon = (.ok false, ⟨1, 0⟩)
    ∧ comment_posts envEmptyListing 5 = (.ok 0, ⟨1, []⟩) :=
  ⟨expected_absence_not_error.1 signNoIcon rfl rfl,
   expected_absence_not_error.2 envEmptyListing 5 [] rfl rfl rfl⟩

/-- Claim C6: `login` succeeds iff a cookie is configured and the
user-card probe finds its element; in every other case it returns `False`
without ever taking a username/password login step, whatever username and
password the environment holds. -/
theorem login_cookie_only :
    ∀ (env : LoginEnv),
      env.navRoot = .ok () → env.setCookies = .ok () → env.refreshPg = .ok () →
      ((login env).1 = .ok true ↔ env.cookie.isSome = true ∧ is_logged_in env = true)
      ∧ (env.cookie.isSome = false ∨ is_logged_in env = false → (login env).1 = .ok false)
      ∧ LoginStep.passwordLoginStep ∉ (login env).2 := by
  intro env h1 h2 h3
  rcases hc : env.cookie with _ | c
  · refine ⟨by simp [login, hc], fun _ => by simp [login, hc], by simp [login, hc]⟩
  · cases hli : is_logged_in env
    · refine ⟨by simp [login, hc, h1, h2, h3, hli], fun _ => by simp [login, hc, h1, h2, h3, hli],
        by simp [login, hc, h1, h2, h3]⟩
    · refine ⟨by simp [login, hc, h1, h2, h3, hli], ?_, by simp [login, hc, h1, h2, h3]⟩
      rintro (hnone | hfalse)
      · simp at hnone
      · simp at hfalse

/-- A configuration with a cookie and a username/password pair, whose
user-card probe comes back empty. -/
def loginEnvW : LoginEnv :=
  ⟨some "session=abc", some "alice", some "hunter2", .ok (), .ok (), .ok (), .ok none⟩

/-- Witness for C6: with the probe unsatisfied, `login` returns `False`
and takes no password-login step despite the configured credentials. -/
theorem login_cookie_only_witness :
    ((login loginEnvW).1 = .ok true ↔ loginEnvW.cookie.isSome = true
      ∧ is_logged_in loginEnvW = true)
    ∧ (login loginEnvW).1 = .ok false
    ∧ LoginStep.passwordLoginStep ∉ (login loginEnvW).2 := by
  have h := login_cookie_only loginEnvW rfl rfl rfl
  exact ⟨h.1, h.2.1 (Or.inr rfl), h.2.2⟩

/-- A run in which every pipeline stage cooperates. -/
def orchOk : OrchEnv :=
  ⟨true, .pageOk, .ok true, fun _ => .ok 1, .ok true⟩

/-- The default invocation: no mode flag, `--max-posts` left at 5. -/
def argsDefault : Args := ⟨false, false, 5⟩

/-- The comment-only invocation with the default `--max-posts`. -/
def argsCommentOnly : Args := ⟨false, true, 5⟩

/-- Claim C5 (refuted on the default mode): with `--max-posts` at its
default 5 and no mode flag, the orchestrator reaches `run_all`, which
invokes the comment action with the hard-coded literal 2 (line 521) and
never with 5; only the comment-only mode forwards the flag. -/
theorem run_all_ignores_max_posts :
    Invocation.commentCall 2 ∈ (mainRun orchOk argsDefault false).2
    ∧ Invocation.commentCall 5 ∉ (mainRun orchOk argsDefault false).2
    ∧ Invocation.commentCall 5 ∈ (mainRun orchOk argsCommentOnly false).2 := by
  refine ⟨by decide, by decide, by decide⟩

/-- Claim C8 (refuted): the environment's headless setting is dead.
`HEADLESS` unset parses to `true`, yet an invocation passing neither flag
runs non-headless, because argparse seeds `args.headless` with `False` and
main's `is not None` guard always fires.  The flags themselves do
override, as claimed. -/
theorem headless_env_overridden :
    envHeadless none = true
    ∧ effectiveHeadless none [] = false
    ∧ effectiveHeadless (some "false") [CliTok.headlessFlag] = true
    ∧ effectiveHeadless (some "true") [CliTok.noHeadlessFlag] = false := by
  refine ⟨by decide, by decide, by decide, by decide⟩

/-- Claim C9 (as stated) is refuted: on the plain success path with a
session created, the page is quit twice before the process exits — once by
main's `finally` (line 635) and once more by `__del__` (line 158) when the
finalizer runs — not exactly once. -/
theorem teardown_twice_counterexample :
    (mainRun orchOk argsDefault true).2.count Invocation.quitCall = 2 := by
  decide

/-- Claim C9 amended: on every exit path on which a session was created,
teardown runs exactly once from main's `finally`, plus once more when the
finalizer runs before exit — so at least once and at most twice, never
zero. -/
theorem teardown_bounded :
    ∀ (env : OrchEnv) (args : Args) (gcRuns : Bool),
      pageCreated env = true →
      (mainRun env args gcRuns).2.count Invocation.quitCall = (if gcRuns then 2 else 1) := by
  intro env args gcRuns hp
  have h0 : (mainBody env args).2.count Invocation.quitCall = 0 :=
    List.count_eq_zero.mpr (mainBody_no_quit env args)
  cases gcRuns <;> simp [mainRun, List.count_append, h0, hp]

/-- Witness for the amended C9 on the success path with the finalizer
running. -/
theorem teardown_bounded_witness :
    pageCreated orchOk = true
    ∧ (mainRun orchOk argsDefault true).2.count Invocation.quitCall = (if true then 2 else 1) :=
  ⟨rfl, teardown_bounded orchOk argsDefault true rfl⟩

end NS
